import Mathlib

/-!
Shallow embedding of the orchestration core of the `cf_ai_trip_planner`
Cloudflare worker (src/lib.rs and src/db.rs), for checking the claims of the
natural-language specification.

Modelling conventions:
* The D1 database is a record of three append-only tables of rows (`DB`).
  Each single-statement write is modelled as a pure append that succeeds;
  claims about storage-failure paths are not in scope of these tables.
* The `TripSession` durable object (the Trip Actor) is modelled by its
  storage keys: three optional fields, exactly the keys `destination`,
  `days`, `response` of TripSession::fetch (src/lib.rs lines 505-536).
* The external generation backend (src/ai.rs, whose source is not part of
  the orchestration core) is an oracle parameter: `Option`-valued functions
  `genPlan` and `genChat`; `none` models a failed generation call.
* Rust `u32` values are `Nat` with the `< 2^32` bound enforced where it
  matters (string parsing).
* Each flow returns, besides the resulting world and outcome, the list of
  external effects it performed, in order (`Event`), so that sequencing and
  "no call was made" claims can be stated.
-/

namespace TripPlanner

/-- Rust u32 bound. -/
def u32Bound : Nat := 2 ^ 32

/-- Model of Rust `str::parse::<u32>`: an optional leading plus sign, then a
non-empty run of ASCII digits only, with the value required to fit in u32
(overflow is a parse error). Written over the character list so that it
reduces definitionally. -/
def parseU32 (s : String) : Option Nat :=
  let cs := match s.data with
    | '+' :: rest => rest
    | other => other
  if cs.isEmpty then none
  else if cs.all Char.isDigit then
    let n := cs.foldl (fun acc c => acc * 10 + (c.toNat - 48)) 0
    if n < u32Bound then some n else none
  else none

/-! ## Trip Actor (durable object `TripSession`, src/lib.rs 404-537) -/

/-- The JSON payload of the POST /init request (struct `TripInit`). -/
structure TripInit where
  destination : String
  days : Nat
  response : String
  deriving Repr, DecidableEq

/-- The durable object storage of one `TripSession`: the three keys written
by POST /init and read by GET /. A fresh actor has no keys set. -/
structure ActorState where
  destination : Option String
  days : Option Nat
  response : Option String
  deriving Repr, DecidableEq

/-- A never-initialized actor: no storage keys present. -/
def ActorState.empty : ActorState := ⟨none, none, none⟩

/-- POST /init (src/lib.rs 509-516): puts all three keys, overwriting any
prior values, unconditionally. -/
def doInit (_s : ActorState) (i : TripInit) : ActorState :=
  { destination := some i.destination, days := some i.days, response := some i.response }

/-- GET / (src/lib.rs 518-533): reads the three keys; returns the triple when
all three are present, `none` (the 404 "trip not initialized" response)
otherwise. -/
def doRead (s : ActorState) : Option (String × Nat × String) :=
  match s.destination, s.days, s.response with
  | some d, some n, some r => some (d, n, r)
  | _, _, _ => none

/-! ### The HTTP surface of the actor, as seen by `get_trip` / `chat` -/

/-- A worker `Response` as far as the orchestration core inspects it:
status code and body text. -/
structure HttpResponse where
  status : Nat
  body : String
  deriving Repr, DecidableEq

/-- Mirror of the character escaping serde_json applies inside JSON string
literals: quote and backslash escaped, the named control escapes, and
\u00xx lowercase hex for the remaining control characters. -/
def jsonEscapeChar (c : Char) : String :=
  if c = '"' then "\\\""
  else if c = '\\' then "\\\\"
  else if c.toNat = 8 then "\\b"
  else if c.toNat = 9 then "\\t"
  else if c.toNat = 10 then "\\n"
  else if c.toNat = 12 then "\\f"
  else if c.toNat = 13 then "\\r"
  else if c.toNat < 32 then
    "\\u00" ++ String.singleton (Nat.digitChar (c.toNat / 16))
      ++ String.singleton (Nat.digitChar (c.toNat % 16))
  else String.singleton c

/-- Escape a whole string for embedding in a JSON string literal. -/
def jsonEscape (s : String) : String :=
  String.join (s.toList.map jsonEscapeChar)

/-- The body built by `Response::from_json(&serde_json::json!(...))` on the
GET / path of TripSession::fetch. serde_json keeps object keys in sorted
order (BTreeMap), so the keys appear as days, destination, response. -/
def tripJson (d : String) (n : Nat) (r : String) : String :=
  "\x7b\"days\":" ++ toString n ++ ",\"destination\":\"" ++ jsonEscape d
    ++ "\",\"response\":\"" ++ jsonEscape r ++ "\"\x7d"

/-- The full GET / response of TripSession::fetch: 200 with the JSON body
when initialized, 404 with body "trip not initialized" otherwise. This is
also the value of `get_trip` (src/lib.rs 346-358), which forwards the
durable object response unchanged. -/
def tripSessionGet (s : ActorState) : HttpResponse :=
  match doRead s with
  | some (d, n, r) => ⟨200, tripJson d n r⟩
  | none => ⟨404, "trip not initialized"⟩

/-! ## Log Store (D1 database, src/db.rs) -/

/-- A row of the `trips` table (create_trip, src/db.rs 57-73). -/
structure TripRow where
  id : String
  destination : String
  days : Nat
  deriving Repr, DecidableEq

/-- A row of the `plans` table (create_plan, src/db.rs 125-142). -/
structure PlanRow where
  trip_id : String
  plan : String
  input_text : String
  updated_at : String
  deriving Repr, DecidableEq

/-- A row of the `messages` table (create_message, src/db.rs 187-204). -/
structure MessageRow where
  trip_id : String
  message : String
  messager_role : String
  created_at : String
  deriving Repr, DecidableEq

/-- The three tables the orchestration core touches, each in insertion
order. -/
structure DB where
  trips : List TripRow
  plans : List PlanRow
  messages : List MessageRow
  deriving Repr, DecidableEq

/-- The empty database. -/
def DB.empty : DB := ⟨[], [], []⟩

/-- db::create_trip: INSERT INTO trips. -/
def create_trip (t : TripRow) (db : DB) : DB :=
  { db with trips := db.trips ++ [t] }

/-- db::create_plan: INSERT INTO plans. -/
def create_plan (p : PlanRow) (db : DB) : DB :=
  { db with plans := db.plans ++ [p] }

/-- db::create_message: INSERT INTO messages. -/
def create_message (m : MessageRow) (db : DB) : DB :=
  { db with messages := db.messages ++ [m] }

/-- db::check_if_messages (src/db.rs 265-271): SELECT 1 FROM messages WHERE
trip_id = ? LIMIT 1 — true when at least one row for the trip exists. -/
def check_if_messages (tid : String) (db : DB) : Bool :=
  db.messages.any (fun m => m.trip_id == tid)

/-- db::get_messages (src/db.rs 325-343) at the typed level: SELECT message,
messager_role, created_at FROM messages WHERE trip_id = ?, rows in store
order. -/
def get_messages (tid : String) (db : DB) : List (String × String × String) :=
  (db.messages.filter (fun m => m.trip_id == tid)).map
    (fun m => (m.message, m.messager_role, m.created_at))

/-! ### Row-level view of get_messages, for the malformed-row behaviour

The Rust get_messages deserializes each result row to `serde_json::Value`
and then extracts the three fields with `row.get(k)?.as_str()?` inside a
`filter_map` closure, so a row with a missing or non-string field is
dropped, not an error. -/

/-- A JSON value as far as the extraction inspects it: a string, or anything
else (number, null, object, ...), on which `as_str` fails. -/
inductive JsonVal where
  | str (s : String)
  | nonStr
  deriving Repr, DecidableEq

/-- Rust `serde_json::Value::as_str`. -/
def JsonVal.as_str : JsonVal → Option String
  | .str s => some s
  | .nonStr => none

/-- A raw result row of the SELECT in get_messages: each selected column may
be absent (`row.get` returns None) or hold any JSON value. -/
structure RawRow where
  message : Option JsonVal
  messager_role : Option JsonVal
  created_at : Option JsonVal
  deriving Repr, DecidableEq

/-- The body of the filter_map closure in get_messages (src/db.rs 333-339):
all three fields must be present and strings. -/
def parseRow (r : RawRow) : Option (String × String × String) := do
  let m ← (← r.message).as_str
  let role ← (← r.messager_role).as_str
  let ts ← (← r.created_at).as_str
  pure (m, role, ts)

/-- The pure tail of db::get_messages (src/db.rs 330-342): filter_map over
the raw rows. Total: a malformed row is skipped, never an error. -/
def get_messages_rows (rows : List RawRow) : List (String × String × String) :=
  rows.filterMap parseRow

/-- A raw row is well-formed when all three fields are present strings. -/
def rowWellFormed (r : RawRow) : Bool :=
  (parseRow r).isSome

/-! ## The world and the effect trace -/

/-- The state the orchestration core acts on: the D1 database and the
per-trip-identifier durable objects. -/
structure World where
  db : DB
  actors : String → ActorState

/-- The world with an empty database and no initialized actor. -/
def World.empty : World := ⟨DB.empty, fun _ => ActorState.empty⟩

/-- One external effect of a flow, recorded in execution order. Pure reads of
the database and the actor are not effects and are not recorded. -/
inductive Event where
  | genPlanCall (destination : String) (days : Nat)
  | genChatCall (context : String) (history : List (String × String × String)) (input : String)
  | actorInit (trip_id : String) (i : TripInit)
  | dbInsertTrip (t : TripRow)
  | dbInsertPlan (p : PlanRow)
  | dbInsertMessage (m : MessageRow)
  deriving Repr, DecidableEq

/-- Whether an event is a write to the Log Store or the Trip Actor. -/
def Event.isWrite : Event → Bool
  | .actorInit _ _ => true
  | .dbInsertTrip _ => true
  | .dbInsertPlan _ => true
  | .dbInsertMessage _ => true
  | _ => false

/-- The generation backend of src/ai.rs, as an oracle: `ai::create_plan`
returns the plan text and the prompt text it sent (the pair whose parts the
creation flow stores), `none` on failure. -/
def GenPlanOracle : Type := String → Nat → Option (String × String)

/-- The generation backend of src/ai.rs, as an oracle: `ai::chat` takes the
context text, the history triples and the user message and returns the
reply, `none` on failure. -/
def GenChatOracle : Type := String → List (String × String × String) → String → Option String

/-! ## Trip creation flow (`input`, src/lib.rs 261-305) -/

/-- The outcomes of the creation flow that the embedding distinguishes. -/
inductive InputError where
  | missingDestination
  | missingDays
  | daysNotANumber
  | genError
  deriving Repr, DecidableEq

/-- The `input` handler (src/lib.rs 261-305). Parameters `trip_id` (the
fresh Uuid) and `now` (Date::now rendered) stand for the two
environment-supplied values. Form fields are `Option`s (`None` models an
absent field). Returns the final world, the outcome (`Ok` carries the trip
identifier the caller is redirected to), and the effect trace. -/
def inputFlow (γ : GenPlanOracle) (w : World)
    (form_destination form_days : Option String) (trip_id now : String) :
    World × Except InputError String × List Event :=
  match form_destination with
  | none => (w, .error .missingDestination, [])
  | some destination =>
    match form_days with
    | none => (w, .error .missingDays, [])
    | some days_str =>
      match parseU32 days_str with
      | none => (w, .error .daysNotANumber, [])
      | some days =>
        match γ destination days with
        | none => (w, .error .genError, [.genPlanCall destination days])
        | some (plan, input_text) =>
          let initPayload : TripInit := ⟨destination, days, plan⟩
          let w1 : World :=
            { w with actors := fun id =>
                if id == trip_id then doInit (w.actors id) initPayload else w.actors id }
          let tripRow : TripRow := ⟨trip_id, destination, days⟩
          let w2 : World := { w1 with db := create_trip tripRow w1.db }
          let planRow : PlanRow := ⟨trip_id, plan, input_text, now⟩
          let w3 : World := { w2 with db := create_plan planRow w2.db }
          (w3, .ok trip_id,
            [.genPlanCall destination days, .actorInit trip_id initPayload,
             .dbInsertTrip tripRow, .dbInsertPlan planRow])

/-! ## Chat turn flow (`chat`, src/lib.rs 196-212) -/

/-- The outcomes of the chat flow that the embedding distinguishes. Note
that the source has no trip-not-found outcome: `get_trip` forwards the
durable object response (status included) and `chat` never inspects the
status, it only awaits the body text. -/
inductive ChatError where
  | missingMessage
  | genError
  deriving Repr, DecidableEq

/-- The branch of `chat` taken when check_if_messages is false
(src/lib.rs 205-208): call ai::chat with the trip response body as context
and the literal one-element history `vec![("","","")]`, and return the
reply without persisting it. -/
def chatBootstrap (δ : GenChatOracle) (w1 : World) (tripText message : String) :
    World × Except ChatError String × List Event :=
  match δ tripText [("", "", "")] message with
  | none => (w1, .error .genError, [.genChatCall tripText [("", "", "")] message])
  | some reply => (w1, .ok reply, [.genChatCall tripText [("", "", "")] message])

/-- The branch of `chat` taken when check_if_messages is true
(src/lib.rs 209-211): call ai::chat with the trip response body and the full
history, persist the reply under role "AI", and return it. -/
def chatWithHistory (δ : GenChatOracle) (w1 : World) (trip_id tripText message nowAI : String) :
    World × Except ChatError String × List Event :=
  let history := get_messages trip_id w1.db
  match δ tripText history message with
  | none => (w1, .error .genError, [.genChatCall tripText history message])
  | some reply =>
    let aiRow : MessageRow := ⟨trip_id, reply, "AI", nowAI⟩
    ({ w1 with db := create_message aiRow w1.db }, .ok reply,
     [.genChatCall tripText history message, .dbInsertMessage aiRow])

/-- The `chat` handler (src/lib.rs 196-212). `form_message` is the form
field `message` (`None` when absent); `nowUser` and `nowAI` stand for the
two Date::now renderings inside the two create_message calls. Step order as
in the source: append the user row under role "User", GET the trip from its
durable object via get_trip, run check_if_messages, then branch. -/
def chatFlow (δ : GenChatOracle) (w : World)
    (trip_id : String) (form_message : Option String) (nowUser nowAI : String) :
    World × Except ChatError String × List Event :=
  match form_message with
  | none => (w, .error .missingMessage, [])
  | some message =>
    let userRow : MessageRow := ⟨trip_id, message, "User", nowUser⟩
    let w1 : World := { w with db := create_message userRow w.db }
    let tripText := (tripSessionGet (w1.actors trip_id)).body
    if !check_if_messages trip_id w1.db then
      let (w2, res, evs) := chatBootstrap δ w1 tripText message
      (w2, res, .dbInsertMessage userRow :: evs)
    else
      let (w2, res, evs) := chatWithHistory δ w1 trip_id tripText message nowAI
      (w2, res, .dbInsertMessage userRow :: evs)

/-! ## Shared lemmas -/

/-- After create_message has appended a row for a trip, check_if_messages
for that trip is true: the SELECT ... LIMIT 1 finds at least the row just
appended. -/
theorem check_if_messages_after_append (tid message role ts : String) (db : DB) :
    check_if_messages tid (create_message ⟨tid, message, role, ts⟩ db) = true := by
  simp [check_if_messages, create_message]

/-- Because the existence check runs after the user append, a chat turn with
a present message field always reduces to the with-history branch applied
to the post-append world. -/
theorem chatFlow_run (δ : GenChatOracle) (w : World) (trip_id message nowUser nowAI : String) :
    chatFlow δ w trip_id (some message) nowUser nowAI =
      (let userRow : MessageRow := ⟨trip_id, message, "User", nowUser⟩
       let w1 : World := { w with db := create_message userRow w.db }
       let x := chatWithHistory δ w1 trip_id (tripSessionGet (w1.actors trip_id)).body message nowAI
       (x.1, x.2.1, .dbInsertMessage userRow :: x.2.2)) := by
  simp only [chatFlow, check_if_messages_after_append, Bool.not_true, Bool.false_eq_true,
    if_false]

/-! ## Claims -/

/-- C8. For every Trip Actor state, the definition read returns the
persisted (destination, days, plan) triple if and only if all three fields
are present in the actor storage, and otherwise signals NotInitialized
(the 404 path); in particular a read for a never-initialized trip
identifier returns NotInitialized. -/
theorem C8_actor_read_all_or_nothing :
    ∀ s : ActorState,
      (∀ d n r, doRead s = some (d, n, r) ↔
        (s.destination = some d ∧ s.days = some n ∧ s.response = some r))
      ∧ (doRead s = none ↔
        (s.destination = none ∨ s.days = none ∨ s.response = none))
      ∧ doRead ActorState.empty = none := by
  rintro ⟨d, n, r⟩
  refine ⟨fun d₀ n₀ r₀ => ?_, ?_, rfl⟩ <;>
    cases d <;> cases n <;> cases r <;> simp [doRead]

/-- C9. Re-initializing an actor, initialized or not, with a different
(destination, days, plan) payload overwrites all three stored fields
entirely; a subsequent read returns exactly the second payload, with no
field-level merge, and the actor remains initialized. -/
theorem C9_reinit_overwrites (s : ActorState) (i₁ i₂ : TripInit) (_h : i₁ ≠ i₂) :
    doRead (doInit (doInit s i₁) i₂) = some (i₂.destination, i₂.days, i₂.response) := rfl

/-- Witness for C9 at a concrete re-initialization. -/
theorem C9_reinit_overwrites_witness :
    (⟨"Paris", 5, "plan A"⟩ : TripInit) ≠ ⟨"Rome", 3, "plan B"⟩
    ∧ doRead (doInit (doInit ActorState.empty ⟨"Paris", 5, "plan A"⟩) ⟨"Rome", 3, "plan B"⟩)
        = some ("Rome", 3, "plan B") :=
  ⟨by decide, C9_reinit_overwrites ActorState.empty _ _ (by decide)⟩

/-- C10. The pure extraction step of get_messages is total and drops
exactly the malformed rows: the result equals the filter_map over the
well-formed rows in store order, a row is well-formed exactly when all
three of message, messager_role, created_at are present string values, and
each well-formed row contributes exactly one entry. -/
theorem C10_malformed_rows_skipped :
    ∀ rows : List RawRow,
      get_messages_rows rows = (rows.filter rowWellFormed).filterMap parseRow
      ∧ (∀ r : RawRow, rowWellFormed r = true ↔
          ∃ m role ts, r.message = some (.str m) ∧ r.messager_role = some (.str role)
            ∧ r.created_at = some (.str ts))
      ∧ (get_messages_rows rows).length = (rows.filter rowWellFormed).length := by
  have hwf : ∀ r : RawRow, rowWellFormed r = true ↔
      ∃ m role ts, r.message = some (.str m) ∧ r.messager_role = some (.str role)
        ∧ r.created_at = some (.str ts) := by
    rintro ⟨m, role, ts⟩
    cases m with
    | none => simp [rowWellFormed, parseRow]
    | some v =>
      cases v <;> cases role <;> simp [rowWellFormed, parseRow, JsonVal.as_str, Option.bind] <;>
        rename_i v₂ <;> cases v₂ <;>
          cases ts <;> simp [JsonVal.as_str, Option.bind] <;>
            rename_i v₃ <;> cases v₃ <;> simp [JsonVal.as_str]
  intro rows
  have hfilter : get_messages_rows rows = (rows.filter rowWellFormed).filterMap parseRow := by
    induction rows with
    | nil => rfl
    | cons r rs ih =>
      by_cases h : rowWellFormed r = true
      · have hs : ∃ v, parseRow r = some v := by
          simpa [rowWellFormed, Option.isSome_iff_exists] using h
        obtain ⟨v, hv⟩ := hs
        simp [get_messages_rows, List.filterMap_cons, List.filter_cons, h, hv] at ih ⊢
        exact ih
      · have hn : parseRow r = none := by
          simp only [rowWellFormed] at h
          exact Option.not_isSome_iff_eq_none.mp (by simpa using h)
        simp [get_messages_rows, List.filterMap_cons, List.filter_cons, h, hn] at ih ⊢
        exact ih
  refine ⟨hfilter, hwf, ?_⟩
  rw [hfilter]
  have : ∀ l : List RawRow, (∀ r ∈ l, rowWellFormed r = true) →
      (l.filterMap parseRow).length = l.length := by
    intro l
    induction l with
    | nil => intro _; rfl
    | cons r rs ih =>
      intro hall
      have hr := hall r (by simp)
      obtain ⟨v, hv⟩ : ∃ v, parseRow r = some v := by
        simpa [rowWellFormed, Option.isSome_iff_exists] using hr
      simp [List.filterMap_cons, hv, ih (fun x hx => hall x (by simp [hx]))]
  exact this _ (fun r hr => (List.mem_filter.mp hr).2)

/-- C5. In a sequentially executed chat turn the message-existence check
runs after the user-message append, so it always finds at least the
just-appended row; hence the bootstrap (no-prior-history) branch is never
taken: the flow always equals the with-history branch applied to the
post-append world. -/
theorem C5_bootstrap_branch_unreachable :
    ∀ (δ : GenChatOracle) (w : World) (trip_id message nowUser nowAI : String),
      check_if_messages trip_id
          (create_message ⟨trip_id, message, "User", nowUser⟩ w.db) = true
      ∧ chatFlow δ w trip_id (some message) nowUser nowAI =
          (let userRow : MessageRow := ⟨trip_id, message, "User", nowUser⟩
           let w1 : World := { w with db := create_message userRow w.db }
           let tripText := (tripSessionGet (w1.actors trip_id)).body
           let x := chatWithHistory δ w1 trip_id tripText message nowAI
           (x.1, x.2.1, .dbInsertMessage userRow :: x.2.2)) := by
  intro δ w trip_id message nowUser nowAI
  exact ⟨check_if_messages_after_append _ _ _ _ _, chatFlow_run δ w trip_id message nowUser nowAI⟩

/-- C1 (amended). A chat turn whose trip identifier addresses an
uninitialized actor does not fail: get_trip forwards the 404 response and
chat never inspects the status, so the flow proceeds and a Generation
Service call IS made, with the error body text "trip not initialized" as
the context; the outcome is the oracle reply or a generation error, never
a trip-not-found failure (no such outcome exists in the code). -/
theorem C1_uninitialized_actor_not_detected
    (δ : GenChatOracle) (w : World) (trip_id message nowUser nowAI : String)
    (h : doRead (w.actors trip_id) = none) :
    (Event.genChatCall "trip not initialized"
        (get_messages trip_id (create_message ⟨trip_id, message, "User", nowUser⟩ w.db)) message)
      ∈ (chatFlow δ w trip_id (some message) nowUser nowAI).2.2
    ∧ ((∃ reply, (chatFlow δ w trip_id (some message) nowUser nowAI).2.1 = .ok reply)
        ∨ (chatFlow δ w trip_id (some message) nowUser nowAI).2.1 = .error .genError) := by
  have hbody : tripSessionGet (w.actors trip_id) = ⟨404, "trip not initialized"⟩ := by
    simp [tripSessionGet, h]
  cases hδ : δ "trip not initialized"
      (get_messages trip_id (create_message ⟨trip_id, message, "User", nowUser⟩ w.db)) message with
  | none =>
    refine ⟨?_, Or.inr ?_⟩ <;>
      simp [chatFlow_run, chatWithHistory, hbody, hδ]
  | some reply =>
    refine ⟨?_, Or.inl ⟨reply, ?_⟩⟩ <;>
      simp [chatFlow_run, chatWithHistory, hbody, hδ]

/-- Witness for C1 at a concrete uninitialized trip. -/
theorem C1_uninitialized_actor_not_detected_witness :
    doRead (World.empty.actors "t1") = none
    ∧ (Event.genChatCall "trip not initialized" [("hi", "User", "u")] "hi")
        ∈ (chatFlow (fun _ _ _ => none) World.empty "t1" (some "hi") "u" "a").2.2 := by
  have h := C1_uninitialized_actor_not_detected (fun _ _ _ => none) World.empty "t1" "hi" "u" "a" rfl
  exact ⟨rfl, h.1⟩

/-- Counterexample to C1 as stated: for an uninitialized actor the chat
flow does not fail (it returns the generated reply) and a Generation
Service call is made. -/
theorem C1_cex_generation_call_made :
    doRead (World.empty.actors "t1") = none
    ∧ (chatFlow (fun _ _ _ => some "reply") World.empty "t1" (some "hi") "u" "a").2.1
        = .ok "reply"
    ∧ (chatFlow (fun _ _ _ => some "reply") World.empty "t1" (some "hi") "u" "a").2.2
        = [.dbInsertMessage ⟨"t1", "hi", "User", "u"⟩,
           .genChatCall "trip not initialized" [("hi", "User", "u")] "hi",
           .dbInsertMessage ⟨"t1", "reply", "AI", "a"⟩] :=
  ⟨rfl, rfl, rfl⟩

/-- C2 (amended). The creation flow validates only field presence and u32
parsability: a missing destination or days field, or a days value that
does not parse as a u32, fails with an error naming the problem and no
write occurs; destination non-emptiness and days positivity are not
checked, so an empty destination or days equal to zero is accepted. -/
theorem C2_validation_as_implemented
    (γ : GenPlanOracle) (w : World) (trip_id now : String) :
    (∀ fdays, inputFlow γ w none fdays trip_id now = (w, .error .missingDestination, []))
    ∧ (∀ d, inputFlow γ w (some d) none trip_id now = (w, .error .missingDays, []))
    ∧ (∀ d ds, parseU32 ds = none →
        inputFlow γ w (some d) (some ds) trip_id now = (w, .error .daysNotANumber, []))
    ∧ (∀ d ds n plan itext, parseU32 ds = some n → γ d n = some (plan, itext) →
        (inputFlow γ w (some d) (some ds) trip_id now).2.1 = .ok trip_id) := by
  refine ⟨fun _ => rfl, fun _ => rfl, ?_, ?_⟩
  · intro d ds hp
    simp [inputFlow, hp]
  · intro d ds n plan itext hp hγ
    simp [inputFlow, hp, hγ]

/-- Witness for C2 at concrete inputs: "abc" is rejected as days, "5" is
accepted. -/
theorem C2_validation_as_implemented_witness :
    parseU32 "abc" = none
    ∧ inputFlow (fun _ _ => some ("PLAN", "PROMPT")) World.empty (some "Paris") (some "abc") "t1" "ts"
        = (World.empty, .error .daysNotANumber, [])
    ∧ parseU32 "5" = some 5
    ∧ (inputFlow (fun _ _ => some ("PLAN", "PROMPT")) World.empty (some "Paris") (some "5") "t1" "ts").2.1
        = .ok "t1" := by
  have h := C2_validation_as_implemented (fun _ _ => some ("PLAN", "PROMPT")) World.empty "t1" "ts"
  exact ⟨by decide, h.2.2.1 "Paris" "abc" (by decide), by decide,
    h.2.2.2 "Paris" "5" 5 "PLAN" "PROMPT" (by decide) rfl⟩

/-- Counterexample to C2 as stated: a request with an empty destination and
days equal to zero is not rejected — the flow succeeds and a trip row with
empty destination and zero days is created. -/
theorem C2_cex_empty_destination_zero_days :
    parseU32 "0" = some 0
    ∧ (inputFlow (fun _ _ => some ("PLAN", "PROMPT")) World.empty (some "") (some "0") "t1" "ts").2.1
        = .ok "t1"
    ∧ (inputFlow (fun _ _ => some ("PLAN", "PROMPT")) World.empty (some "") (some "0") "t1" "ts").1.db.trips
        = [⟨"t1", "", 0⟩] :=
  ⟨by decide, rfl, rfl⟩

/-- C3 (amended). The no-prior-history branch of chat calls the Generation
Service with the trip GET response body as context, a one-element
placeholder history holding a single triple of empty strings (not an empty
history), and the user message; the reply is returned to the caller and
nothing is appended to the Log Store in this branch (the world is
unchanged). -/
theorem C3_bootstrap_branch_behaviour
    (δ : GenChatOracle) (w1 : World) (tripText message : String) :
    (chatBootstrap δ w1 tripText message).2.2
        = [.genChatCall tripText [("", "", "")] message]
    ∧ (chatBootstrap δ w1 tripText message).1 = w1
    ∧ (∀ reply, δ tripText [("", "", "")] message = some reply →
        (chatBootstrap δ w1 tripText message).2.1 = .ok reply) := by
  cases h : δ tripText [("", "", "")] message <;>
    simp [chatBootstrap, h]

/-- Witness for C3 at a concrete bootstrap invocation. -/
theorem C3_bootstrap_branch_behaviour_witness :
    (chatBootstrap (fun _ _ _ => some "reply") World.empty (tripJson "Paris" 5 "PLAN") "hi").2.1
        = .ok "reply"
    ∧ (chatBootstrap (fun _ _ _ => some "reply") World.empty (tripJson "Paris" 5 "PLAN") "hi").1
        = World.empty := by
  have h := C3_bootstrap_branch_behaviour (fun _ _ _ => some "reply") World.empty
      (tripJson "Paris" 5 "PLAN") "hi"
  exact ⟨h.2.2 "reply" rfl, h.2.1⟩

/-- Counterexample to C3 as stated: the history passed to the Generation
Service in the bootstrap branch is the one-element list [("","","")], not
the empty list, and the context passed is the trip JSON body, not the plan
text alone. -/
theorem C3_cex_placeholder_history_not_empty :
    (chatBootstrap (fun _ _ _ => some "reply") World.empty (tripJson "Paris" 5 "PLAN") "hi").2.2
        = [.genChatCall (tripJson "Paris" 5 "PLAN") [("", "", "")] "hi"]
    ∧ ([("", "", "")] : List (String × String × String)) ≠ ([] : List (String × String × String))
    ∧ tripJson "Paris" 5 "PLAN" ≠ "PLAN" :=
  ⟨rfl, by decide, by decide⟩

/-- C4 (amended). The messages the orchestration core appends carry role
exactly "User" or "AI": a chat turn appends first the user message under
role "User", then at most one more row, which is the returned reply under
role "AI"; the creation flow appends no message rows. -/
theorem C4_message_roles
    (δ : GenChatOracle) (γ : GenPlanOracle) (w : World)
    (trip_id message nowUser nowAI : String)
    (fdest fdays : Option String) (trip_id₂ now₂ : String) :
    (∃ tail,
        (chatFlow δ w trip_id (some message) nowUser nowAI).1.db.messages
          = w.db.messages ++ MessageRow.mk trip_id message "User" nowUser :: tail
        ∧ (tail = []
            ∨ ∃ reply, tail = [MessageRow.mk trip_id reply "AI" nowAI]
                ∧ (chatFlow δ w trip_id (some message) nowUser nowAI).2.1 = .ok reply))
    ∧ (inputFlow γ w fdest fdays trip_id₂ now₂).1.db.messages = w.db.messages := by
  constructor
  · cases hδ : δ ((tripSessionGet (w.actors trip_id)).body)
        (get_messages trip_id (create_message ⟨trip_id, message, "User", nowUser⟩ w.db)) message with
    | none =>
      refine ⟨[], ?_, Or.inl rfl⟩
      simp only [chatFlow_run, chatWithHistory, hδ]
      simp [create_message]
    | some reply =>
      refine ⟨[⟨trip_id, reply, "AI", nowAI⟩], ?_, Or.inr ⟨reply, rfl, ?_⟩⟩ <;>
        (simp only [chatFlow_run, chatWithHistory, hδ]; try simp [create_message])
  · cases fdest with
    | none => rfl
    | some d =>
      cases fdays with
      | none => rfl
      | some ds =>
        cases hp : parseU32 ds with
        | none => simp [inputFlow, hp]
        | some n =>
          cases hγ : γ d n with
          | none => simp [inputFlow, hp, hγ]
          | some pr =>
            obtain ⟨plan, itext⟩ := pr
            simp [inputFlow, hp, hγ, create_trip, create_plan]

/-- Counterexample to C4 as stated: the persisted roles of a chat turn are
the strings "User" and "AI", neither of which is "user" or "assistant". -/
theorem C4_cex_roles_not_user_assistant :
    ((chatFlow (fun _ _ _ => some "reply") World.empty "t1" (some "hi") "u" "a").1.db.messages.map
        (fun m => m.messager_role)) = ["User", "AI"]
    ∧ ¬("User" = "user" ∨ "User" = "assistant")
    ∧ ¬("AI" = "user" ∨ "AI" = "assistant") :=
  ⟨rfl, by decide, by decide⟩

/-- C6. The creation flow is strictly sequential — the Generation Service
call precedes the actor init, which precedes the trip row insert, which
precedes the plan row insert — and a Generation Service failure aborts the
flow with the world unchanged and no write effect performed. -/
theorem C6_creation_flow_ordering
    (γ : GenPlanOracle) (w : World) (fdest fdays : Option String) (trip_id now : String) :
    ((inputFlow γ w fdest fdays trip_id now).2.1 = .error .genError →
        (inputFlow γ w fdest fdays trip_id now).1 = w
        ∧ ∀ e ∈ (inputFlow γ w fdest fdays trip_id now).2.2, e.isWrite = false)
    ∧ (∀ d ds n plan itext, fdest = some d → fdays = some ds →
        parseU32 ds = some n → γ d n = some (plan, itext) →
        (inputFlow γ w fdest fdays trip_id now).2.2
          = [.genPlanCall d n,
             .actorInit trip_id ⟨d, n, plan⟩,
             .dbInsertTrip ⟨trip_id, d, n⟩,
             .dbInsertPlan ⟨trip_id, plan, itext, now⟩]) := by
  constructor
  · cases fdest with
    | none => intro herr; exact absurd herr (by simp [inputFlow])
    | some d =>
      cases fdays with
      | none => intro herr; exact absurd herr (by simp [inputFlow])
      | some ds =>
        cases hp : parseU32 ds with
        | none => intro herr; exact absurd herr (by simp [inputFlow, hp])
        | some n =>
          cases hγ : γ d n with
          | none =>
            intro _
            refine ⟨by simp [inputFlow, hp, hγ], ?_⟩
            intro e he
            simp [inputFlow, hp, hγ] at he
            subst he
            rfl
          | some pr =>
            obtain ⟨plan, itext⟩ := pr
            intro herr
            exact absurd herr (by simp [inputFlow, hp, hγ])
  · intro d ds n plan itext hd hds hp hγ
    subst hd
    subst hds
    simp [inputFlow, hp, hγ]

/-- Witness for C6: a failing oracle leaves the world unchanged, a
successful one produces the four effects in order. -/
theorem C6_creation_flow_ordering_witness :
    (inputFlow (fun _ _ => none) World.empty (some "Paris") (some "5") "t1" "ts").2.1
        = .error .genError
    ∧ (inputFlow (fun _ _ => none) World.empty (some "Paris") (some "5") "t1" "ts").1 = World.empty
    ∧ (inputFlow (fun _ _ => some ("PLAN", "PROMPT")) World.empty (some "Paris") (some "5") "t2" "ts").2.2
        = [.genPlanCall "Paris" 5,
           .actorInit "t2" ⟨"Paris", 5, "PLAN"⟩,
           .dbInsertTrip ⟨"t2", "Paris", 5⟩,
           .dbInsertPlan ⟨"t2", "PLAN", "PROMPT", "ts"⟩] := by
  have h₁ := C6_creation_flow_ordering (fun _ _ => none) World.empty (some "Paris") (some "5") "t1" "ts"
  have h₂ := C6_creation_flow_ordering (fun _ _ => some ("PLAN", "PROMPT")) World.empty
      (some "Paris") (some "5") "t2" "ts"
  exact ⟨rfl, (h₁.1 rfl).1, h₂.2 "Paris" "5" 5 "PLAN" "PROMPT" rfl rfl (by decide) rfl⟩

/-- C7. For valid inputs (non-empty destination, days parsing to a
positive integer) a successful creation run — generation returning a
non-empty plan — yields the trip identifier, and a subsequent actor
definition read returns exactly that destination and days with the
non-empty plan. -/
theorem C7_creation_then_actor_read
    (γ : GenPlanOracle) (w : World)
    (destination days_str trip_id now plan input_text : String) (days : Nat)
    (_hdest : destination ≠ "")
    (hdays : parseU32 days_str = some days)
    (_hpos : 0 < days)
    (hgen : γ destination days = some (plan, input_text))
    (hplan : plan ≠ "") :
    (inputFlow γ w (some destination) (some days_str) trip_id now).2.1 = .ok trip_id
    ∧ doRead ((inputFlow γ w (some destination) (some days_str) trip_id now).1.actors trip_id)
        = some (destination, days, plan)
    ∧ plan ≠ "" := by
  refine ⟨?_, ?_, hplan⟩ <;> simp [inputFlow, hdays, hgen, doInit, doRead]

/-- Witness for C7 on (Paris, 5). -/
theorem C7_creation_then_actor_read_witness :
    ("Paris" : String) ≠ ""
    ∧ parseU32 "5" = some 5
    ∧ (0 : Nat) < 5
    ∧ (inputFlow (fun d _ => some ("PLAN " ++ d, "PROMPT")) World.empty
          (some "Paris") (some "5") "t1" "ts").2.1 = .ok "t1"
    ∧ doRead ((inputFlow (fun d _ => some ("PLAN " ++ d, "PROMPT")) World.empty
          (some "Paris") (some "5") "t1" "ts").1.actors "t1")
        = some ("Paris", 5, "PLAN Paris") := by
  have h := C7_creation_then_actor_read (fun d _ => some ("PLAN " ++ d, "PROMPT")) World.empty
      "Paris" "5" "t1" "ts" ("PLAN " ++ "Paris") "PROMPT" 5 (by decide) (by decide) (by decide)
      rfl (by decide)
  exact ⟨by decide, by decide, by decide, h.1, h.2.1⟩

end TripPlanner
